import Mathlib

/-!
Verification of the freeze-frame extraction pipeline
(`create_freeze_frames.py`) and the freeze-frame store accessors
(`st_dynamic.py`) of the twelve-skillcorner-modelling repository.

Modelling conventions:
* JSON/parquet scalar values that the pipeline only copies (never computes
  with) are given concrete Lean types: coordinates as `Int` (the pipeline
  performs no arithmetic or comparison on them, so the choice is immaterial),
  timestamps as `String`, frame indices and identifiers as `Int`.
* A Python value that may be `None` (a `dict.get` result or an optional JSON
  field) is an `Option`.
* Python exceptions (a `KeyError`/`TypeError` from subscripting, a
  `FileNotFoundError` from `open`/`read_parquet`) are `Except.error` values;
  code raising an uncaught exception propagates the error.
* The on-disk store (`freeze/<match_id>.parquet` files written by
  `DataFrame.to_parquet` and read by `pd.read_parquet`) is modelled as a
  partial map from match identifier to persisted table.
-/

set_option autoImplicit false

namespace SkillCorner

/-- Planar coordinates in the tracking feed. The pipeline only copies these
values from input records into output rows, so they are modelled as `Int`. -/
abbrev Coord := Int

/-- The camera-visible-area polygon (`image_corners_projection`): four corner
coordinates. The builder copies the whole object per row without inspecting
its fields. -/
structure VisibleArea where
  x_top_left : Coord
  y_top_left : Coord
  x_bottom_left : Coord
  y_bottom_left : Coord
  x_bottom_right : Coord
  y_bottom_right : Coord
  x_top_right : Coord
  y_top_right : Coord
deriving Repr, DecidableEq

/-- One per-player sample inside a tracking record. Every field is read via
`dict.get`, hence optional. -/
structure PlayerSample where
  player_id : Option Int
  is_detected : Option Bool
  x : Option Coord
  y : Option Coord
deriving Repr, DecidableEq

/-- The ball sample inside a tracking record (fields read via `dict.get`). -/
structure BallSample where
  is_detected : Option Bool
  x : Option Coord
  y : Option Coord
deriving Repr, DecidableEq

/-- One raw tracking record (`d` in the source loop). `frame`, `timestamp`,
`period` and `image_corners_projection` are read with `d.get(...)`;
`player_data` is subscripted (`d['player_data']`), so its absence is a
`KeyError`; `ball_data` is read with `d.get('ball_data')`. -/
structure TrackingFrame where
  frame : Option Int
  timestamp : Option String
  period : Option Int
  player_data : Option (List PlayerSample)
  ball_data : Option BallSample
  image_corners_projection : Option VisibleArea
deriving Repr, DecidableEq

/-- One event record; the extractor reads only its `frame_start` and
`frame_end` columns. -/
structure Event where
  frame_start : Int
  frame_end : Int
deriving Repr, DecidableEq

/-- One normalized freeze-frame output row (`custom_data` entry). -/
structure Row where
  time : String
  frame : Int
  period : Option Int
  player_id : Option Int
  is_detected : Option Bool
  is_ball : Bool
  x : Option Coord
  y : Option Coord
  visible_area : Option VisibleArea
deriving Repr, DecidableEq

/-- The Event Frame Extractor:
`frames = list(set(df_events['frame_start'].to_list() + df_events['frame_end'].to_list()))`.
Set semantics are modelled by `List.dedup` over the concatenation. -/
def extractFrames (events : List Event) : List Int :=
  ((events.map fun e => e.frame_start) ++ (events.map fun e => e.frame_end)).dedup

/-- Processing of one tracking record `d` by the freeze-frame builder loop:
if `d.get('frame') in frames and d.get('timestamp') is not None`, append one
row per entry of `d['player_data']`, then bind `ball = d.get('ball_data')`
and, if `ball['is_detected'] is not None`, append the ball row.
Subscripting a missing `player_data` key or a `None` ball is an error. -/
def processRecord (frames : List Int) (d : TrackingFrame) : Except String (List Row) :=
  match d.frame, d.timestamp with
  | some f, some ts =>
    if f ∈ frames then
      match d.player_data with
      | none => .error "KeyError: player_data"
      | some ps =>
        let playerRows := ps.map fun p =>
          { time := ts, frame := f, period := d.period,
            player_id := p.player_id, is_detected := p.is_detected,
            is_ball := false, x := p.x, y := p.y,
            visible_area := d.image_corners_projection : Row }
        match d.ball_data with
        | none => .error "TypeError: NoneType object is not subscriptable"
        | some ball =>
          if ball.is_detected.isSome then
            .ok (playerRows ++
              [{ time := ts, frame := f, period := d.period,
                 player_id := some (-1), is_detected := ball.is_detected,
                 is_ball := true, x := ball.x, y := ball.y,
                 visible_area := d.image_corners_projection }])
          else
            .ok playerRows
    else
      .ok []
  | _, _ => .ok []

/-- The Freeze-Frame Builder loop over the whole tracking record sequence,
accumulating `custom_data` in input order; an exception raised while
processing a record aborts the build. -/
def buildRows (frames : List Int) : List TrackingFrame → Except String (List Row)
  | [] => .ok []
  | d :: rest => do
    let rows ← processRecord frames d
    let tail ← buildRows frames rest
    .ok (rows ++ tail)

/-- The per-match batch loop of `create_freeze_frames.py`: for each match id,
reading the dynamic events file is guarded by try/except (a missing file
prints a notice and continues); the tracking file `open` and the builder run
are NOT guarded, so their errors abort the whole batch. A successful match
contributes its (match id, freeze-frame table) pair. -/
def runBatch (dynamic : Int → Option (List Event))
    (tracking : Int → Option (List TrackingFrame)) :
    List Int → Except String (List (Int × List Row))
  | [] => .ok []
  | m :: rest =>
    match dynamic m with
    | none => runBatch dynamic tracking rest
    | some events =>
      match tracking m with
      | none => .error "FileNotFoundError: tracking file missing"
      | some td => do
        let rows ← buildRows (extractFrames events) td
        let tail ← runBatch dynamic tracking rest
        .ok ((m, rows) :: tail)

/-- The Freeze-Frame Store state: `freeze/<match_id>.parquet` files modelled
as a partial map from match id to persisted table. -/
abbrev Store := Int → Option (List Row)

/-- `df_frames.to_parquet(f"freeze/{match_id}.parquet")`: replace the
per-match table. -/
def writeFreeze (store : Store) (m : Int) (t : List Row) : Store :=
  fun k => if k = m then some t else store k

/-- `pd.read_parquet(f"freeze/{match_id}.parquet")`: full-table retrieval by
match id. -/
def readFreeze (store : Store) (m : Int) : Option (List Row) :=
  store m

/-- A freeze-frame row tagged with its source match id
(`df_frames["match_id"] = match_id`). -/
structure TaggedRow where
  row : Row
  match_id : Int
deriving Repr, DecidableEq

/-- `get_freeze_frames` of `st_dynamic.py`: for each requested match id read
the per-match table (a missing file raises), tag each of its rows with the
match id, and concatenate in request order. -/
def get_freeze_frames (store : Store) : List Int → Except String (List TaggedRow)
  | [] => .ok []
  | m :: rest =>
    match store m with
    | none => .error "FileNotFoundError: freeze file missing"
    | some t => do
      let tail ← get_freeze_frames store rest
      .ok ((t.map fun r => TaggedRow.mk r m) ++ tail)

/-- The player sample of the spec's concrete scenario
(`{player_id:7, is_detected:true, x:10.0, y:5.0}`). -/
def p7 : PlayerSample :=
  { player_id := some 7, is_detected := some true, x := some 10, y := some 5 }

/-- The ball sample of the spec's concrete scenario
(`{is_detected:true, x:0.0, y:0.0}`). -/
def ball100 : BallSample :=
  { is_detected := some true, x := some 0, y := some 0 }

/-- The tracking record of the spec's concrete scenario
(`{frame:100, timestamp:"00:01:40.0", period:1, ...}`). -/
def d100 : TrackingFrame :=
  { frame := some 100, timestamp := some "00:01:40.0", period := some 1,
    player_data := some [p7], ball_data := some ball100,
    image_corners_projection := none }

/-- A selected tracking record whose `ball_data` field is entirely absent. -/
def dNoBall : TrackingFrame :=
  { frame := some 5, timestamp := some "00:00:00.5", period := some 1,
    player_data := some [], ball_data := none,
    image_corners_projection := none }

/-- A selected tracking record whose ball is present but not detected
(`is_detected` is `false`, not `None`). -/
def dBallF : TrackingFrame :=
  { frame := some 5, timestamp := some "00:00:00.5", period := some 1,
    player_data := some [],
    ball_data := some { is_detected := some false, x := some 3, y := some 4 },
    image_corners_projection := none }

/-- A tracking record with frame index 1 used to exercise frame-set
insensitivity. -/
def dFrame1 : TrackingFrame :=
  { frame := some 1, timestamp := some "00:00:00.1", period := some 1,
    player_data := some [p7], ball_data := some ball100,
    image_corners_projection := none }

/-- Dynamic-events lookup for the counterexample batch: matches 1 and 2 both
have (empty) event tables; any other id has none. -/
def cexDynamic : Int → Option (List Event) := fun m =>
  if m = 1 then some [] else if m = 2 then some [] else none

/-- Tracking lookup for the counterexample batch: only match 2 has a tracking
file; match 1 has none. -/
def cexTracking : Int → Option (List TrackingFrame) := fun m =>
  if m = 2 then some [] else none

/-- A sample persisted freeze-frame row for the store witnesses. -/
def rowW : Row :=
  { time := "00:01:40.0", frame := 100, period := some 1, player_id := some 7,
    is_detected := some true, is_ball := false, x := some 10, y := some 5,
    visible_area := none }

/-- A store holding a one-row table for match 5 and an empty table for
match 7. -/
def storeW : Store := fun k =>
  if k = 5 then some [rowW] else if k = 7 then some [] else none

/-- Reduction of monadic bind on an `Except.ok` value. -/
theorem except_bind_ok {α β : Type} (a : α) (g : α → Except String β) :
    (Except.ok a : Except String α) >>= g = g a := rfl

/-- Reduction of monadic bind on an `Except.error` value. -/
theorem except_bind_error {α β : Type} (e : String) (g : α → Except String β) :
    (Except.error e : Except String α) >>= g = .error e := rfl

/-- Shape of the rows emitted for one selected tracking record with its
player list and ball sample present: the player rows in `player_data` order,
then the ball row exactly when `is_detected` is not `None`. -/
theorem processRecord_selected_eq (frames : List Int) (f : Int) (ts : String)
    (d : TrackingFrame) (ps : List PlayerSample) (ball : BallSample)
    (hf : d.frame = some f) (hmem : f ∈ frames) (ht : d.timestamp = some ts)
    (hp : d.player_data = some ps) (hb : d.ball_data = some ball) :
    processRecord frames d =
      .ok ((ps.map fun p =>
        ({ time := ts, frame := f, period := d.period, player_id := p.player_id,
           is_detected := p.is_detected, is_ball := false, x := p.x, y := p.y,
           visible_area := d.image_corners_projection } : Row)) ++
        (if ball.is_detected.isSome then
          [{ time := ts, frame := f, period := d.period, player_id := some (-1),
             is_detected := ball.is_detected, is_ball := true, x := ball.x,
             y := ball.y, visible_area := d.image_corners_projection }]
         else [])) := by
  unfold processRecord
  rw [hf, ht, hp, hb]
  dsimp only
  rw [if_pos hmem]
  rcases hd : ball.is_detected with _ | b <;> simp [hd]

/-- The build of a concatenated tracking sequence is the concatenation of the
builds, in order (first segment's rows first). -/
theorem buildRows_append (frames : List Int) (t1 t2 : List TrackingFrame) :
    buildRows frames (t1 ++ t2) = (do
      let a ← buildRows frames t1
      let b ← buildRows frames t2
      .ok (a ++ b)) := by
  induction t1 with
  | nil =>
    simp only [List.nil_append, buildRows]
    rcases h : buildRows frames t2 with e | b <;> rfl
  | cons d rest ih =>
    have lhs : buildRows frames ((d :: rest) ++ t2) = (do
        let rows ← processRecord frames d
        let tail ← buildRows frames (rest ++ t2)
        .ok (rows ++ tail)) := rfl
    have rhs : buildRows frames (d :: rest) = (do
        let rows ← processRecord frames d
        let tail ← buildRows frames rest
        .ok (rows ++ tail)) := rfl
    rw [lhs, rhs, ih]
    rcases hp : processRecord frames d with e | rows
    · rfl
    rcases h1 : buildRows frames rest with e | a
    · rfl
    rcases h2 : buildRows frames t2 with e | b
    · rfl
    · simp [except_bind_ok, List.append_assoc]

/-- `processRecord` depends on the target frame list only through membership:
frame lists with the same members process every record identically. -/
theorem processRecord_congr (fr1 fr2 : List Int) (d : TrackingFrame)
    (h : ∀ x : Int, x ∈ fr1 ↔ x ∈ fr2) :
    processRecord fr1 d = processRecord fr2 d := by
  obtain ⟨fr, tso, per, pd, bd, vis⟩ := d
  cases fr with
  | none => rfl
  | some f =>
    cases tso with
    | none => rfl
    | some ts =>
      unfold processRecord
      dsimp only
      by_cases hx : f ∈ fr1
      · rw [if_pos hx, if_pos ((h f).mp hx)]
      · rw [if_neg hx, if_neg fun hc => hx ((h f).mpr hc)]

/-- C2: the extracted frame list is exactly the deduplicated union of the
events' start and end frames: membership is equivalent to being some event's
`frame_start` or `frame_end`, and the list has no duplicates. -/
theorem extractFrames_spec (events : List Event) :
    (∀ x : Int, x ∈ extractFrames events ↔
      ∃ e ∈ events, x = e.frame_start ∨ x = e.frame_end) ∧
    (extractFrames events).Nodup := by
  constructor
  · intro x
    simp only [extractFrames, List.mem_dedup, List.mem_append, List.mem_map]
    constructor
    · rintro (⟨e, he, rfl⟩ | ⟨e, he, rfl⟩)
      · exact ⟨e, he, Or.inl rfl⟩
      · exact ⟨e, he, Or.inr rfl⟩
    · rintro ⟨e, he, rfl | rfl⟩
      · exact Or.inl ⟨e, he, rfl⟩
      · exact Or.inr ⟨e, he, rfl⟩
  · exact List.nodup_dedup _

/-- C4: a tracking record with an absent (`None`) timestamp contributes no
output rows, even when its frame index is in the target frame set, and
dropping it from the sequence does not change the build. -/
theorem processRecord_no_timestamp (frames : List Int) (d : TrackingFrame)
    (h : d.timestamp = none) :
    processRecord frames d = .ok [] ∧
    ∀ rest : List TrackingFrame,
      buildRows frames (d :: rest) = buildRows frames rest := by
  have hpr : processRecord frames d = .ok [] := by
    unfold processRecord
    rcases hf : d.frame with _ | f <;> simp [h]
  refine ⟨hpr, fun rest => ?_⟩
  simp only [buildRows, hpr]
  rcases hb : buildRows frames rest with err | tail <;> rfl

/-- Witness for C4 at a concrete record whose frame index 100 is in the
target set but whose timestamp is absent. -/
theorem processRecord_no_timestamp_witness :
    processRecord [100]
      { frame := some 100, timestamp := none, period := some 1,
        player_data := some [], ball_data := none,
        image_corners_projection := none } = .ok [] :=
  (processRecord_no_timestamp [100]
    { frame := some 100, timestamp := none, period := some 1,
      player_data := some [], ball_data := none,
      image_corners_projection := none } rfl).1

/-- C5: an empty event table yields an empty frame set, and building with an
empty frame set yields an empty freeze-frame table for the match. -/
theorem empty_events_empty_table :
    extractFrames [] = [] ∧
    ∀ td : List TrackingFrame, buildRows [] td = .ok [] := by
  refine ⟨rfl, fun td => ?_⟩
  induction td with
  | nil => rfl
  | cons d rest ih =>
    have hpr : processRecord [] d = .ok [] := by
      unfold processRecord
      rcases d.frame with _ | f <;> rcases d.timestamp with _ | ts <;> simp
    simp only [buildRows, hpr, ih]
    rfl

/-- C7: store round-trip — writing a freeze-frame table for a match and
reading it back for the same match id yields the very same table, in
particular one of identical row count and field values. -/
theorem freeze_roundtrip (store : Store) (m : Int) (t : List Row) :
    readFreeze (writeFreeze store m t) m = some t ∧
    (readFreeze (writeFreeze store m t) m).map List.length = some t.length := by
  constructor <;> simp [readFreeze, writeFreeze]

/-- C1: for a tracking record whose frame index is in the target set and
whose timestamp is present (with its player list and ball sample present, as
the data model guarantees), the builder emits exactly one row per player
sample plus one ball row when the ball's detection field is not absent,
each row preserving time, frame, period, entity id (-1 for the ball),
detection flag, is-ball flag, x, y and the frame's visible-area polygon;
hence the row count is the player count plus (1 if the detection field is
present, else 0). -/
theorem builder_rows_per_selected_frame (frames : List Int) (f : Int)
    (ts : String) (d : TrackingFrame) (ps : List PlayerSample)
    (ball : BallSample) (hf : d.frame = some f) (hmem : f ∈ frames)
    (ht : d.timestamp = some ts) (hp : d.player_data = some ps)
    (hb : d.ball_data = some ball) :
    processRecord frames d =
      .ok ((ps.map fun p =>
        ({ time := ts, frame := f, period := d.period, player_id := p.player_id,
           is_detected := p.is_detected, is_ball := false, x := p.x, y := p.y,
           visible_area := d.image_corners_projection } : Row)) ++
        (if ball.is_detected.isSome then
          [{ time := ts, frame := f, period := d.period, player_id := some (-1),
             is_detected := ball.is_detected, is_ball := true, x := ball.x,
             y := ball.y, visible_area := d.image_corners_projection }]
         else [])) ∧
    ∀ rows, processRecord frames d = .ok rows →
      rows.length = ps.length + (if ball.is_detected.isSome then 1 else 0) := by
  have h := processRecord_selected_eq frames f ts d ps ball hf hmem ht hp hb
  refine ⟨h, fun rows hr => ?_⟩
  rw [h] at hr
  injection hr with hr
  subst hr
  rcases hd : ball.is_detected with _ | b <;> simp [hd]

/-- Witness for C1 at the spec's concrete scenario: frame 100 with one player
and a detected ball yields exactly the player row followed by the ball row. -/
theorem builder_rows_per_selected_frame_witness :
    processRecord [100] d100 =
      .ok [{ time := "00:01:40.0", frame := 100, period := some 1,
             player_id := some 7, is_detected := some true, is_ball := false,
             x := some 10, y := some 5, visible_area := none },
           { time := "00:01:40.0", frame := 100, period := some 1,
             player_id := some (-1), is_detected := some true, is_ball := true,
             x := some 0, y := some 0, visible_area := none }] := by
  have h := (builder_rows_per_selected_frame [100] 100 "00:01:40.0" d100 [p7]
    ball100 rfl (by simp) rfl rfl rfl).1
  rw [h]
  rfl

/-- C6: the builder is deterministic in the target frame set — its output
depends on the frame list only through membership, so rerunning with the
frame set presented in any iteration order (or with duplicates) produces the
identical row sequence, in particular a row set identical up to ordering. -/
theorem buildRows_set_extensional (fr1 fr2 : List Int)
    (td : List TrackingFrame) (h : ∀ x : Int, x ∈ fr1 ↔ x ∈ fr2) :
    buildRows fr1 td = buildRows fr2 td := by
  induction td with
  | nil => rfl
  | cons d rest ih =>
    have lhs : buildRows fr1 (d :: rest) = (do
        let rows ← processRecord fr1 d
        let tail ← buildRows fr1 rest
        .ok (rows ++ tail)) := rfl
    have rhs : buildRows fr2 (d :: rest) = (do
        let rows ← processRecord fr2 d
        let tail ← buildRows fr2 rest
        .ok (rows ++ tail)) := rfl
    rw [lhs, rhs, processRecord_congr fr1 fr2 d h, ih]

/-- Witness for C6: two enumerations of the same frame set, one with a
duplicate, build the identical table from the same tracking sequence. -/
theorem buildRows_set_extensional_witness :
    buildRows [1, 2] [dFrame1] = buildRows [2, 1, 1] [dFrame1] :=
  buildRows_set_extensional [1, 2] [2, 1, 1] [dFrame1] (fun x => by
    simp only [List.mem_cons, List.mem_singleton, List.not_mem_nil, or_false]
    tauto)

/-- C9: for a selected tracking record, an entirely absent `ball_data` makes
the builder raise an uncaught subscripting error, aborting the match's build;
and since the guard only tests whether `is_detected` inside `ball_data` is
null, a present ball with `is_detected = false` still gets a ball row. -/
theorem ball_guard_behavior (frames : List Int) (f : Int) (ts : String)
    (d : TrackingFrame) (ps : List PlayerSample) (hf : d.frame = some f)
    (hmem : f ∈ frames) (ht : d.timestamp = some ts)
    (hp : d.player_data = some ps) :
    (d.ball_data = none →
      processRecord frames d =
        .error "TypeError: NoneType object is not subscriptable" ∧
      ∀ rest, buildRows frames (d :: rest) =
        .error "TypeError: NoneType object is not subscriptable") ∧
    (∀ ball : BallSample, d.ball_data = some ball →
      ball.is_detected = some false →
      ∃ rows, processRecord frames d = .ok rows ∧
        ({ time := ts, frame := f, period := d.period, player_id := some (-1),
           is_detected := some false, is_ball := true, x := ball.x,
           y := ball.y, visible_area := d.image_corners_projection } : Row)
          ∈ rows) := by
  constructor
  · intro hb
    have herr : processRecord frames d =
        .error "TypeError: NoneType object is not subscriptable" := by
      unfold processRecord
      rw [hf, ht, hp, hb]
      dsimp only
      rw [if_pos hmem]
    refine ⟨herr, fun rest => ?_⟩
    have lhs : buildRows frames (d :: rest) = (do
        let rows ← processRecord frames d
        let tail ← buildRows frames rest
        .ok (rows ++ tail)) := rfl
    rw [lhs, herr]
    rfl
  · intro ball hb hdet
    have h := processRecord_selected_eq frames f ts d ps ball hf hmem ht hp hb
    rw [hdet] at h
    simp only [Option.isSome_some, if_true] at h
    refine ⟨_, h, ?_⟩
    exact List.mem_append_right _ (List.mem_singleton.mpr rfl)

/-- Witness for C9: the record with no `ball_data` makes the build of its
singleton sequence error out, while the record whose ball has
`is_detected = false` yields a table containing its ball row. -/
theorem ball_guard_behavior_witness :
    buildRows [5] [dNoBall] =
      .error "TypeError: NoneType object is not subscriptable" ∧
    (∃ rows, processRecord [5] dBallF = .ok rows ∧
      ({ time := "00:00:00.5", frame := 5, period := some 1,
         player_id := some (-1), is_detected := some false, is_ball := true,
         x := some 3, y := some 4, visible_area := none } : Row) ∈ rows) := by
  constructor
  · exact ((ball_guard_behavior [5] 5 "00:00:00.5" dNoBall [] rfl (by simp)
      rfl rfl).1 rfl).2 []
  · exact (ball_guard_behavior [5] 5 "00:00:00.5" dBallF [] rfl (by simp)
      rfl rfl).2 { is_detected := some false, x := some 3, y := some 4 } rfl rfl

/-- C10: the builder's output order is fully determined by the input tracking
sequence: building a concatenation concatenates the builds in input order,
and a selected record at the head of the sequence contributes its player rows
in `player_data` order, then its ball row, ahead of all later records'
rows. -/
theorem builder_output_ordered (frames : List Int) (f : Int) (ts : String)
    (d : TrackingFrame) (ps : List PlayerSample) (ball : BallSample)
    (rest : List TrackingFrame) (hf : d.frame = some f) (hmem : f ∈ frames)
    (ht : d.timestamp = some ts) (hp : d.player_data = some ps)
    (hb : d.ball_data = some ball) :
    (∀ t1 t2 : List TrackingFrame,
      buildRows frames (t1 ++ t2) = (do
        let a ← buildRows frames t1
        let b ← buildRows frames t2
        .ok (a ++ b))) ∧
    (∀ tail, buildRows frames rest = .ok tail →
      buildRows frames (d :: rest) =
        .ok ((ps.map fun p =>
          ({ time := ts, frame := f, period := d.period,
             player_id := p.player_id, is_detected := p.is_detected,
             is_ball := false, x := p.x, y := p.y,
             visible_area := d.image_corners_projection } : Row)) ++
          (if ball.is_detected.isSome then
            [{ time := ts, frame := f, period := d.period,
               player_id := some (-1), is_detected := ball.is_detected,
               is_ball := true, x := ball.x, y := ball.y,
               visible_area := d.image_corners_projection }]
           else []) ++ tail)) := by
  refine ⟨buildRows_append frames, fun tail htail => ?_⟩
  have lhs : buildRows frames (d :: rest) = (do
      let rows ← processRecord frames d
      let tail ← buildRows frames rest
      .ok (rows ++ tail)) := rfl
  rw [lhs, processRecord_selected_eq frames f ts d ps ball hf hmem ht hp hb,
    htail]
  simp [except_bind_ok, List.append_assoc]

/-- Witness for C10: building the singleton sequence of the concrete scenario
record yields the player row, then the ball row, then the (empty) tail. -/
theorem builder_output_ordered_witness :
    buildRows [100] [d100] =
      .ok [{ time := "00:01:40.0", frame := 100, period := some 1,
             player_id := some 7, is_detected := some true, is_ball := false,
             x := some 10, y := some 5, visible_area := none },
           { time := "00:01:40.0", frame := 100, period := some 1,
             player_id := some (-1), is_detected := some true, is_ball := true,
             x := some 0, y := some 0, visible_area := none }] := by
  have h := (builder_output_ordered [100] 100 "00:01:40.0" d100 [p7] ball100 []
    rfl (by simp) rfl rfl rfl).2 [] rfl
  rw [h]
  rfl

/-- C3 counterexample: in the batch [1, 2], match 1 has an event table but no
tracking file; instead of skipping match 1 and continuing, the run aborts
with an uncaught file-not-found error (the try/except guards only the event
table read), so no remaining match is processed and the batch does not
complete. -/
theorem runBatch_missing_tracking_fatal :
    runBatch cexDynamic cexTracking [1, 2] =
      .error "FileNotFoundError: tracking file missing" := by
  rfl

/-- C3 amended: a match whose dynamic EVENTS file is missing is skipped (with
a printed notice) and the batch continues with the remaining matches, but a
match that has an event table and no TRACKING file aborts the entire batch
with an uncaught error. -/
theorem runBatch_skip_policy (dynamic : Int → Option (List Event))
    (tracking : Int → Option (List TrackingFrame)) (m : Int)
    (rest : List Int) :
    (dynamic m = none →
      runBatch dynamic tracking (m :: rest) = runBatch dynamic tracking rest) ∧
    (∀ events, dynamic m = some events → tracking m = none →
      runBatch dynamic tracking (m :: rest) =
        .error "FileNotFoundError: tracking file missing") := by
  have lhs : runBatch dynamic tracking (m :: rest) =
      match dynamic m with
      | none => runBatch dynamic tracking rest
      | some events =>
        match tracking m with
        | none => .error "FileNotFoundError: tracking file missing"
        | some td => (do
          let rows ← buildRows (extractFrames events) td
          let tail ← runBatch dynamic tracking rest
          .ok ((m, rows) :: tail)) := rfl
  constructor
  · intro hd
    rw [lhs, hd]
  · intro events hd ht
    rw [lhs, hd, ht]

/-- Witness for the amended C3: match 3 (no event table) is skipped and the
batch continues; match 1 (event table present, tracking file missing) aborts
the batch. -/
theorem runBatch_skip_policy_witness :
    runBatch cexDynamic cexTracking [3, 2] =
      runBatch cexDynamic cexTracking [2] ∧
    runBatch cexDynamic cexTracking [1] =
      .error "FileNotFoundError: tracking file missing" :=
  ⟨(runBatch_skip_policy cexDynamic cexTracking 3 [2]).1 rfl,
   (runBatch_skip_policy cexDynamic cexTracking 1 []).2 [] rfl rfl⟩

/-- C8: when every requested match has a persisted table, multi-match
retrieval returns the concatenation, in request order, of the per-match
tables with every row tagged with the match identifier of the table it came
from. -/
theorem get_freeze_frames_concat_tagged (store : Store) (ids : List Int)
    (h : ∀ m ∈ ids, (store m).isSome) :
    get_freeze_frames store ids =
      .ok ((ids.map fun m =>
        ((store m).getD []).map fun r => TaggedRow.mk r m).flatten) := by
  induction ids with
  | nil => rfl
  | cons m rest ih =>
    obtain ⟨t, ht⟩ := Option.isSome_iff_exists.mp (h m (List.mem_cons_self m rest))
    have hrest := ih fun k hk => h k (List.mem_cons_of_mem m hk)
    have lhs : get_freeze_frames store (m :: rest) =
        match store m with
        | none => .error "FileNotFoundError: freeze file missing"
        | some t => (do
            let tail ← get_freeze_frames store rest
            .ok ((t.map fun r => TaggedRow.mk r m) ++ tail)) := rfl
    rw [lhs, ht, hrest]
    simp only [List.map_cons, List.flatten_cons, ht, Option.getD_some]
    rfl

/-- Witness for C8 over a store holding tables for matches 5 and 7: retrieval
of [5, 7] returns match 5's single row tagged with 5 followed by match 7's
(empty) rows. -/
theorem get_freeze_frames_concat_tagged_witness :
    get_freeze_frames storeW [5, 7] = .ok [TaggedRow.mk rowW 5] := by
  have h := get_freeze_frames_concat_tagged storeW [5, 7] (by decide)
  rw [h]
  rfl

end SkillCorner
